import Mathlib

/-!
Verification of the reputation / emotional-analytics core of
`polkadot-creative-identity` against its design specification.

The emotional trend analyzer and the complexity metric are embedded from the
Rust shown in `TECHNICAL_ARCHITECTURE.md` (`EmotionalBridgeProcessor` and
`EmotionalMetadata`); the reputation update engine is embedded from the
`SoulboundManager::update_reputation` / `ReputationScore` code there, with the
helper routines that the repository only declares (decay, map-based weighted
score, validation) modelled from the specification.  `f32` values are modelled
as exact rationals where only comparisons and field arithmetic occur, and as
real numbers where `sqrt` / `exp` appear.
-/

set_option autoImplicit false

/-- One emotional observation: valence / arousal / dominance axes plus a
timestamp, as in the `EmotionalMetadata` items of the Rust
`emotional_trajectory`. -/
structure EmotionalMetadata where
  valence : ℚ
  arousal : ℚ
  dominance : ℚ
  timestamp : ℤ
deriving DecidableEq

/-- Placeholder observation used only to totalize `head` / `last` projections;
the Rust code `unwrap`s these on lists it has already checked nonempty. -/
def dummyObs : EmotionalMetadata := ⟨0, 0, 0, 0⟩

/-- The four trend classes of `EmotionalTrend`. -/
inductive EmotionalTrend where
  | Ascending
  | Descending
  | Stable
  | Volatile
deriving DecidableEq

/-- The window the Rust code builds with
`history.iter().take(5.min(history.len()))`: the FIRST `min(5, len)` entries
of the history. -/
def trend_window (history : List EmotionalMetadata) : List EmotionalMetadata :=
  history.take (min 5 history.length)

/-- `newest.valence - oldest.valence` over the code's window
(`oldest = window.first()`, `newest = window.last()`). -/
def valence_diff (history : List EmotionalMetadata) : ℚ :=
  ((trend_window history).getLastD dummyObs).valence -
    ((trend_window history).headD dummyObs).valence

/-- `newest.arousal - oldest.arousal` over the code's window. -/
def arousal_diff (history : List EmotionalMetadata) : ℚ :=
  ((trend_window history).getLastD dummyObs).arousal -
    ((trend_window history).headD dummyObs).arousal

/-- `EmotionalBridgeProcessor::analyze_emotional_trend`, embedded from the Rust
in `TECHNICAL_ARCHITECTURE.md`: fewer than 2 observations give `Stable`;
otherwise the guarded `match` on `(valence_diff.abs(), arousal_diff.abs())`
with its inner signed-diff cascade. -/
def analyze_emotional_trend (history : List EmotionalMetadata) : EmotionalTrend :=
  if history.length < 2 then .Stable
  else
    let recent := history.take (min 5 history.length)
    let oldest := recent.headD dummyObs
    let newest := recent.getLastD dummyObs
    let vd := newest.valence - oldest.valence
    let ad := newest.arousal - oldest.arousal
    if |vd| < 0.1 ∧ |ad| < 0.1 then .Stable
    else if |vd| > 0.3 ∨ |ad| > 0.3 then .Volatile
    else if vd > 0.1 ∨ ad > 0.1 then .Ascending
    else if vd < -0.1 ∨ ad < -0.1 then .Descending
    else .Stable

/-- `clamp(x, 0.0, 1.0)` on reals, as Rust `f32::clamp(0.0, 1.0)`. -/
noncomputable def clamp01 (x : ℝ) : ℝ := min (max x 0) 1

/-- Euclidean distance between the `(valence, arousal)` points of two
observations, as in `EmotionalMetadata::calculate_complexity`. -/
noncomputable def pair_distance (prev curr : EmotionalMetadata) : ℝ :=
  Real.sqrt (((curr.valence : ℝ) - (prev.valence : ℝ)) ^ 2 +
    ((curr.arousal : ℝ) - (prev.arousal : ℝ)) ^ 2)

/-- The accumulation loop of `calculate_complexity`:
`for i in 1..len { total += distance(t[i-1], t[i]) }`. -/
noncomputable def totalDistance : List EmotionalMetadata → ℝ
  | a :: b :: rest => pair_distance a b + totalDistance (b :: rest)
  | _ => 0

/-- `EmotionalMetadata::calculate_complexity`, embedded from the Rust in
`TECHNICAL_ARCHITECTURE.md`: `0.0` for fewer than 2 trajectory entries, else
the clamped average consecutive `(valence, arousal)` distance. -/
noncomputable def calculate_complexity (trajectory : List EmotionalMetadata) : ℝ :=
  if trajectory.length < 2 then 0
  else clamp01 (totalDistance trajectory / trajectory.length)

/-- The four verification tiers of `VerificationLevel`. -/
inductive VerificationLevel where
  | Basic
  | Verified
  | Enhanced
  | Premium
deriving DecidableEq

/-- The multiplier table matched on `reputation_score.verification_level` in
`update_reputation` / `calculate_weighted_score`. -/
noncomputable def verification_multiplier : VerificationLevel → ℝ
  | .Basic => 0.8
  | .Verified => 1.0
  | .Enhanced => 1.2
  | .Premium => 1.5

/-- A category-score map (`HashMap<String, f32>` in the Rust), modelled as an
association list; keys are unique in the states the engine builds. -/
abbrev CategoryScores := List (String × ℝ)

/-- `HashMap::get`, returning the stored score for a key if present. -/
def lookupScore : CategoryScores → String → Option ℝ
  | [], _ => none
  | (k, v) :: rest, key => if k = key then some v else lookupScore rest key

/-- `HashMap::insert`: overwrite the key's entry if present, else append. -/
def insertScore : CategoryScores → String → ℝ → CategoryScores
  | [], key, val => [(key, val)]
  | (k, v) :: rest, key, val =>
    if k = key then (k, val) :: rest else (k, v) :: insertScore rest key val

/-- The per-identity reputation aggregate of the specification's data model
(`overall_score`, `category_scores`, `verification_level`, `last_updated`). -/
structure ReputationState where
  overall_score : ℝ
  category_scores : CategoryScores
  verification_level : VerificationLevel
  last_updated : ℤ

/-- An incoming activity record: category scores plus its event timestamp. -/
structure Activity where
  category_scores : CategoryScores
  occurred_at : ℤ

/-- The validation failures of `apply_activity`. -/
inductive ReputationError where
  | NonMonotonicTime
  | InvalidRange
  | EmptyActivity
deriving DecidableEq

/-- Modelled from the spec: `DECAY_HALF_LIFE` is only named, never defined, in
the repository; the spec fixes it as a positive multi-day constant (default
7 days) in the timestamp unit.  7 days in seconds. -/
noncomputable def DECAY_HALF_LIFE : ℝ := 604800

/-- Modelled from the spec: `calculate_exponential_decay` is called by
`update_reputation` but not defined in the repository; the spec gives
`decay = exp(-ln(2) * elapsed / HALF_LIFE)` with `elapsed = now - last`. -/
noncomputable def calculate_exponential_decay (last_updated now : ℤ) (half_life : ℝ) : ℝ :=
  Real.exp (-Real.log 2 * ((now : ℝ) - (last_updated : ℝ)) / half_life)

/-- The per-category blend of `update_reputation`:
`(current * decay + new_score * (1 - decay)).clamp(0.0, 1.0)`. -/
noncomputable def blend_score (current new_score decay : ℝ) : ℝ :=
  clamp01 (current * decay + new_score * (1 - decay))

/-- Modelled from the spec: the map-based `calculate_weighted_score` free
function that `update_reputation` calls is not defined in the repository (only
the field-based `ReputationScore` method is shown); per the spec it is the
fixed-weight sum over the five canonical keys, a missing key contributing
`0.0`. -/
noncomputable def calculate_weighted_score (m : CategoryScores) : ℝ :=
  0.25 * (lookupScore m "emotional_consistency").getD 0 +
  0.25 * (lookupScore m "creative_output_quality").getD 0 +
  0.20 * (lookupScore m "community_engagement").getD 0 +
  0.15 * (lookupScore m "cross_chain_activity").getD 0 +
  0.15 * (lookupScore m "temporal_stability").getD 0

/-- The category-map update loop of `update_reputation`: for each
`(category, new_score)` of the activity, blend against the current map entry
(neutral prior `0.5` for a never-seen key) and insert the result back. -/
noncomputable def update_categories (m : CategoryScores) (entries : CategoryScores)
    (decay : ℝ) : CategoryScores :=
  entries.foldl
    (fun acc p => insertScore acc p.1 (blend_score ((lookupScore acc p.1).getD 0.5) p.2 decay))
    m

open Classical

/-- `apply_activity(state, activity, now)`: the reputation update transition.
The decay / blend / weighted-score / multiplier steps are embedded from
`SoulboundManager::update_reputation` in `TECHNICAL_ARCHITECTURE.md`; the
validation guards and the explicit `now` argument are modelled from the spec
(the repository only sketches the success path, reading its clock for `now`). -/
noncomputable def apply_activity (state : ReputationState) (activity : Activity)
    (now : ℤ) : Except ReputationError ReputationState :=
  if now < state.last_updated then .error .NonMonotonicTime
  else if ∃ p ∈ activity.category_scores, p.2 < 0 ∨ 1 < p.2 then .error .InvalidRange
  else if activity.category_scores = [] then .error .EmptyActivity
  else
    let time_decay := calculate_exponential_decay state.last_updated now DECAY_HALF_LIFE
    let new_scores := update_categories state.category_scores activity.category_scores time_decay
    let base_score := calculate_weighted_score new_scores
    .ok
      { overall_score := clamp01 (base_score * verification_multiplier state.verification_level)
        category_scores := new_scores
        verification_level := state.verification_level
        last_updated := now }

/-- The record built by the TypeScript `createEmotionData` utility
(`src/utils/polkadot-client.ts`). -/
structure EmotionData where
  valence : ℚ
  arousal : ℚ
  dominance : ℚ
  confidence : ℚ
  timestamp : ℤ
deriving DecidableEq

/-- `createEmotionData` from `src/utils/polkadot-client.ts`: each axis is
clamped by `Math.max(-1, Math.min(1, x))`, confidence by
`Math.max(0, Math.min(100, c))`; `Date.now()` is passed in as `now`. -/
def createEmotionData (valence arousal dominance confidence : ℚ) (now : ℤ) : EmotionData :=
  { valence := max (-1) (min 1 valence)
    arousal := max (-1) (min 1 arousal)
    dominance := max (-1) (min 1 dominance)
    confidence := max 0 (min 100 confidence)
    timestamp := now }

/-- A fresh reputation state (empty map, `Basic`, score 0), per the
specification's lifecycle default. -/
noncomputable def exState : ReputationState :=
  { overall_score := 0
    category_scores := []
    verification_level := .Basic
    last_updated := 0 }

/-- A one-category activity used to exercise the success path. -/
noncomputable def exActivity : Activity :=
  { category_scores := [("creative_output_quality", 0.5)], occurred_at := 0 }

/-- An activity carrying no category scores. -/
def emptyActivity : Activity := { category_scores := [], occurred_at := 0 }

/-- The state `apply_activity exState exActivity 0` produces. -/
noncomputable def exResult : ReputationState :=
  { overall_score :=
      clamp01 (calculate_weighted_score
        (update_categories [] [("creative_output_quality", 0.5)]
          (calculate_exponential_decay 0 0 DECAY_HALF_LIFE)) *
        verification_multiplier .Basic)
    category_scores :=
      update_categories [] [("creative_output_quality", 0.5)]
        (calculate_exponential_decay 0 0 DECAY_HALF_LIFE)
    verification_level := .Basic
    last_updated := 0 }

/-- A two-observation trajectory used to exercise the analyzer. -/
def exTraj : List EmotionalMetadata := [⟨0, 0, 0, 0⟩, ⟨1, 0, 0, 1⟩]

/- ------------------------------------------------------------------ -/
/- Theorems                                                           -/
/- ------------------------------------------------------------------ -/

/-- `totalDistance` (the accumulation loop of `calculate_complexity`) equals
the sum of the consecutive-pair Euclidean distances. -/
theorem totalDistance_eq_sum (l : List EmotionalMetadata) :
    totalDistance l = (List.zipWith pair_distance l l.tail).sum := by
  induction l with
  | nil => simp [totalDistance]
  | cons a t ih =>
    cases t with
    | nil => simp [totalDistance]
    | cons b rest => simp [totalDistance, ih]

/-- C6: `calculate_complexity` returns `0.0` for a trajectory of fewer than 2
observations, and otherwise the clamp to `[0,1]` of the sum of consecutive
`(valence, arousal)` Euclidean distances divided by the trajectory length. -/
theorem calculate_complexity_spec (trajectory : List EmotionalMetadata) :
    (trajectory.length < 2 → calculate_complexity trajectory = 0) ∧
    (2 ≤ trajectory.length →
      calculate_complexity trajectory =
        clamp01 ((List.zipWith pair_distance trajectory trajectory.tail).sum /
          trajectory.length)) := by
  constructor
  · intro h
    simp [calculate_complexity, h]
  · intro h
    have h2 : ¬ trajectory.length < 2 := by omega
    simp [calculate_complexity, h2, totalDistance_eq_sum]

/-- Closed instance of `calculate_complexity_spec` at a 1-element and a
2-element trajectory. -/
theorem calculate_complexity_spec_witness :
    calculate_complexity [⟨0, 0, 0, 0⟩] = 0 ∧
    calculate_complexity exTraj =
      clamp01 ((List.zipWith pair_distance exTraj exTraj.tail).sum / exTraj.length) :=
  ⟨(calculate_complexity_spec [⟨0, 0, 0, 0⟩]).1 (by decide),
   (calculate_complexity_spec exTraj).2 (by decide)⟩

/-- C10: `createEmotionData` always returns axes in `[-1, 1]` and confidence
in `[0, 100]`, silently clamping any out-of-range input. -/
theorem createEmotionData_clamped (v a d c : ℚ) (now : ℤ) :
    -1 ≤ (createEmotionData v a d c now).valence ∧
    (createEmotionData v a d c now).valence ≤ 1 ∧
    -1 ≤ (createEmotionData v a d c now).arousal ∧
    (createEmotionData v a d c now).arousal ≤ 1 ∧
    -1 ≤ (createEmotionData v a d c now).dominance ∧
    (createEmotionData v a d c now).dominance ≤ 1 ∧
    0 ≤ (createEmotionData v a d c now).confidence ∧
    (createEmotionData v a d c now).confidence ≤ 100 :=
  ⟨le_max_left _ _, max_le (by norm_num) (min_le_left _ _),
   le_max_left _ _, max_le (by norm_num) (min_le_left _ _),
   le_max_left _ _, max_le (by norm_num) (min_le_left _ _),
   le_max_left _ _, max_le (by norm_num) (min_le_left _ _)⟩

/-- C2: on a six-observation history (timestamps ascending) whose five oldest
entries are identical and whose newest entry moves valence by `0.5`, the code
returns `Stable` because `take(5)` windows the FIRST five entries; the last
five entries (the window the claim prescribes) classify as `Volatile`. -/
theorem analyze_trend_first_window_divergence :
    analyze_emotional_trend
      [⟨0, 0, 0, 0⟩, ⟨0, 0, 0, 1⟩, ⟨0, 0, 0, 2⟩, ⟨0, 0, 0, 3⟩, ⟨0, 0, 0, 4⟩,
        ⟨1/2, 0, 0, 5⟩] = .Stable ∧
    analyze_emotional_trend
      [⟨0, 0, 0, 1⟩, ⟨0, 0, 0, 2⟩, ⟨0, 0, 0, 3⟩, ⟨0, 0, 0, 4⟩, ⟨1/2, 0, 0, 5⟩] =
      .Volatile := by
  constructor
  · norm_num [analyze_emotional_trend]
  · norm_num [analyze_emotional_trend, abs_of_nonneg]

/-- C5: `analyze_emotional_trend` returns `Stable` below 2 observations, and
otherwise classifies the window's diffs in the exact priority order
Stable (both small), Volatile (either large), Ascending, Descending,
fallback `Stable`. -/
theorem analyze_emotional_trend_priority (history : List EmotionalMetadata) :
    (history.length < 2 → analyze_emotional_trend history = .Stable) ∧
    (2 ≤ history.length →
      analyze_emotional_trend history =
        (if |valence_diff history| < 0.1 ∧ |arousal_diff history| < 0.1 then .Stable
         else if |valence_diff history| > 0.3 ∨ |arousal_diff history| > 0.3 then .Volatile
         else if valence_diff history > 0.1 ∨ arousal_diff history > 0.1 then .Ascending
         else if valence_diff history < -0.1 ∨ arousal_diff history < -0.1 then .Descending
         else .Stable)) := by
  constructor
  · intro h
    simp [analyze_emotional_trend, h]
  · intro h
    have h2 : ¬ history.length < 2 := by omega
    simp only [analyze_emotional_trend, valence_diff, arousal_diff, trend_window, if_neg h2]

/-- Closed instance of `analyze_emotional_trend_priority` at the empty history
and at `exTraj`. -/
theorem analyze_emotional_trend_priority_witness :
    analyze_emotional_trend [] = .Stable ∧
    analyze_emotional_trend exTraj =
      (if |valence_diff exTraj| < 0.1 ∧ |arousal_diff exTraj| < 0.1 then .Stable
       else if |valence_diff exTraj| > 0.3 ∨ |arousal_diff exTraj| > 0.3 then .Volatile
       else if valence_diff exTraj > 0.1 ∨ arousal_diff exTraj > 0.1 then .Ascending
       else if valence_diff exTraj < -0.1 ∨ arousal_diff exTraj < -0.1 then .Descending
       else .Stable) :=
  ⟨(analyze_emotional_trend_priority []).1 (by decide),
   (analyze_emotional_trend_priority exTraj).2 (by decide)⟩

/-- Looking up the key just inserted returns the inserted value. -/
theorem lookupScore_insertScore_self (m : CategoryScores) (k : String) (v : ℝ) :
    lookupScore (insertScore m k v) k = some v := by
  induction m with
  | nil => simp [insertScore, lookupScore]
  | cons p rest ih =>
    obtain ⟨a, b⟩ := p
    by_cases h : a = k <;> simp [insertScore, lookupScore, h, ih]

/-- Inserting one key leaves every other key's lookup unchanged. -/
theorem lookupScore_insertScore_ne (m : CategoryScores) (k key : String) (v : ℝ)
    (h : k ≠ key) : lookupScore (insertScore m k v) key = lookupScore m key := by
  induction m with
  | nil => simp [insertScore, lookupScore, h]
  | cons p rest ih =>
    obtain ⟨a, b⟩ := p
    by_cases ha : a = k
    · simp [insertScore, lookupScore, ha, h]
    · by_cases hb : a = key <;> simp [insertScore, lookupScore, ha, hb, Ne.symm h, ih]

/-- The update loop leaves keys untouched by the activity unchanged. -/
theorem lookupScore_update_categories_not_mem (entries : CategoryScores)
    (m : CategoryScores) (d : ℝ) (k : String)
    (h : k ∉ entries.map Prod.fst) :
    lookupScore (update_categories m entries d) k = lookupScore m k := by
  induction entries generalizing m with
  | nil => rfl
  | cons p rest ih =>
    simp only [List.map_cons, List.mem_cons, not_or] at h
    have step : update_categories m (p :: rest) d =
        update_categories (insertScore m p.1 (blend_score ((lookupScore m p.1).getD 0.5) p.2 d))
          rest d := rfl
    rw [step, ih _ h.2, lookupScore_insertScore_ne _ _ _ _ (fun he => h.1 he.symm)]

/-- For a key the activity does carry (keys unique), the update loop stores
exactly the blend of the key's prior value against the activity value. -/
theorem lookupScore_update_categories_mem (entries : CategoryScores)
    (m : CategoryScores) (d : ℝ) (k : String) (v : ℝ)
    (hmem : (k, v) ∈ entries) (hnd : (entries.map Prod.fst).Nodup) :
    lookupScore (update_categories m entries d) k =
      some (blend_score ((lookupScore m k).getD 0.5) v d) := by
  induction entries generalizing m with
  | nil => cases hmem
  | cons p rest ih =>
    obtain ⟨a, b⟩ := p
    simp only [List.map_cons, List.nodup_cons] at hnd
    have step : update_categories m ((a, b) :: rest) d =
        update_categories (insertScore m a (blend_score ((lookupScore m a).getD 0.5) b d))
          rest d := rfl
    rcases List.mem_cons.mp hmem with heq | hmem2
    · injection heq with h1 h2
      subst h1
      subst h2
      rw [step, lookupScore_update_categories_not_mem rest _ d k hnd.1,
        lookupScore_insertScore_self]
    · have hk_in : k ∈ rest.map Prod.fst := List.mem_map.mpr ⟨(k, v), hmem2, rfl⟩
      have hak : a ≠ k := fun hak => hnd.1 (hak ▸ hk_in)
      rw [step, ih _ hmem2 hnd.2, lookupScore_insertScore_ne _ _ _ _ hak]

/-- Inversion of the success path of `apply_activity`. -/
theorem apply_activity_ok (s : ReputationState) (a : Activity) (now : ℤ)
    (s' : ReputationState) (hok : apply_activity s a now = .ok s') :
    s' =
      { overall_score :=
          clamp01 (calculate_weighted_score
            (update_categories s.category_scores a.category_scores
              (calculate_exponential_decay s.last_updated now DECAY_HALF_LIFE)) *
            verification_multiplier s.verification_level)
        category_scores :=
          update_categories s.category_scores a.category_scores
            (calculate_exponential_decay s.last_updated now DECAY_HALF_LIFE)
        verification_level := s.verification_level
        last_updated := now } := by
  unfold apply_activity at hok
  split_ifs at hok
  all_goals
    first
    | exact Except.noConfusion hok
    | · simp only [Except.ok.injEq] at hok
        exact hok.symm

/-- Evaluation of the success path at a concrete fresh state and
one-category activity with zero elapsed time. -/
theorem apply_activity_ex_ok : apply_activity exState exActivity 0 = .ok exResult := by
  unfold apply_activity exState exActivity exResult
  norm_num

/-- C1: on success, `apply_activity` updates each category key carried by the
activity to `clamp(current * decay + activity_score * (1 - decay), 0, 1)`,
where `current` is the state's stored score for the key or the neutral prior
`0.5` when the key was never seen, and `decay` is the exponential decay of the
elapsed time. -/
theorem apply_activity_blend (s : ReputationState) (a : Activity) (now : ℤ)
    (s' : ReputationState) (hnd : (a.category_scores.map Prod.fst).Nodup)
    (hok : apply_activity s a now = .ok s')
    (k : String) (v : ℝ) (hk : (k, v) ∈ a.category_scores) :
    lookupScore s'.category_scores k =
      some (blend_score ((lookupScore s.category_scores k).getD 0.5) v
        (calculate_exponential_decay s.last_updated now DECAY_HALF_LIFE)) := by
  have h := apply_activity_ok s a now s' hok
  subst h
  exact lookupScore_update_categories_mem _ _ _ _ _ hk hnd

/-- Closed instance of `apply_activity_blend` at a fresh state and a
one-category activity. -/
theorem apply_activity_blend_witness :
    lookupScore exResult.category_scores "creative_output_quality" =
      some (blend_score
        ((lookupScore exState.category_scores "creative_output_quality").getD 0.5) 0.5
        (calculate_exponential_decay exState.last_updated 0 DECAY_HALF_LIFE)) :=
  apply_activity_blend exState exActivity 0 exResult (by simp [exActivity])
    apply_activity_ex_ok "creative_output_quality" 0.5 (by simp [exActivity])

/-- C3: `apply_activity` reports an error exactly when `now` precedes
`state.last_updated`, some activity category score lies outside `[0,1]`, or
the activity carries no category scores; otherwise it succeeds (and, being a
pure `Except`-valued function, it never mutates the input state). -/
theorem apply_activity_error_iff (s : ReputationState) (a : Activity) (now : ℤ) :
    ((∃ e, apply_activity s a now = .error e) ↔
      (now < s.last_updated ∨ (∃ p ∈ a.category_scores, p.2 < 0 ∨ 1 < p.2) ∨
        a.category_scores = [])) ∧
    (¬(now < s.last_updated ∨ (∃ p ∈ a.category_scores, p.2 < 0 ∨ 1 < p.2) ∨
        a.category_scores = []) →
      ∃ s', apply_activity s a now = .ok s') := by
  unfold apply_activity
  split_ifs with h1 h2 h3
  · simp_all
  · simp_all
  · simp_all
  · constructor
    · constructor
      · rintro ⟨e, he⟩
        exact absurd he (by simp)
      · rintro (hc | hc | hc)
        · exact absurd hc (by omega)
        · exact absurd hc h2
        · exact absurd hc h3
    · intro _
      exact ⟨_, rfl⟩

/-- Closed instance of `apply_activity_error_iff`: the empty activity is
rejected, the valid one-category activity succeeds. -/
theorem apply_activity_error_iff_witness :
    (∃ e, apply_activity exState emptyActivity 0 = .error e) ∧
    (∃ s', apply_activity exState exActivity 0 = .ok s') :=
  ⟨(apply_activity_error_iff exState emptyActivity 0).1.mpr (Or.inr (Or.inr rfl)),
   (apply_activity_error_iff exState exActivity 0).2 (by norm_num [exState, exActivity])⟩

/-- C4: on success the new overall score is
`clamp(base_score * multiplier, 0, 1)` with `base_score` the fixed-weight sum
`0.25, 0.25, 0.20, 0.15, 0.15` over the five canonical categories of the
post-blend map, a missing canonical category contributing `0.0`, and the
multiplier `0.8 / 1.0 / 1.2 / 1.5` for `Basic / Verified / Enhanced /
Premium`. -/
theorem apply_activity_overall (s : ReputationState) (a : Activity) (now : ℤ)
    (s' : ReputationState) (hok : apply_activity s a now = .ok s') :
    (s'.overall_score =
      clamp01 ((0.25 * (lookupScore s'.category_scores "emotional_consistency").getD 0 +
        0.25 * (lookupScore s'.category_scores "creative_output_quality").getD 0 +
        0.20 * (lookupScore s'.category_scores "community_engagement").getD 0 +
        0.15 * (lookupScore s'.category_scores "cross_chain_activity").getD 0 +
        0.15 * (lookupScore s'.category_scores "temporal_stability").getD 0) *
        verification_multiplier s.verification_level)) ∧
    verification_multiplier .Basic = 0.8 ∧ verification_multiplier .Verified = 1.0 ∧
    verification_multiplier .Enhanced = 1.2 ∧ verification_multiplier .Premium = 1.5 := by
  have h := apply_activity_ok s a now s' hok
  subst h
  exact ⟨rfl, rfl, rfl, rfl, rfl⟩

/-- Closed instance of `apply_activity_overall` at the concrete success
evaluation. -/
theorem apply_activity_overall_witness :
    (exResult.overall_score =
      clamp01 ((0.25 * (lookupScore exResult.category_scores "emotional_consistency").getD 0 +
        0.25 * (lookupScore exResult.category_scores "creative_output_quality").getD 0 +
        0.20 * (lookupScore exResult.category_scores "community_engagement").getD 0 +
        0.15 * (lookupScore exResult.category_scores "cross_chain_activity").getD 0 +
        0.15 * (lookupScore exResult.category_scores "temporal_stability").getD 0) *
        verification_multiplier exState.verification_level)) ∧
    verification_multiplier .Basic = 0.8 ∧ verification_multiplier .Verified = 1.0 ∧
    verification_multiplier .Enhanced = 1.2 ∧ verification_multiplier .Premium = 1.5 :=
  apply_activity_overall exState exActivity 0 exResult apply_activity_ex_ok

/-- C7: on success, a category key absent from the activity keeps exactly its
previous lookup result (no decay-only update), and the verification level is
preserved. -/
theorem apply_activity_frame (s : ReputationState) (a : Activity) (now : ℤ)
    (s' : ReputationState) (hok : apply_activity s a now = .ok s')
    (k : String) (hk : k ∉ a.category_scores.map Prod.fst) :
    lookupScore s'.category_scores k = lookupScore s.category_scores k ∧
    s'.verification_level = s.verification_level := by
  have h := apply_activity_ok s a now s' hok
  subst h
  exact ⟨lookupScore_update_categories_not_mem _ _ _ _ hk, rfl⟩

/-- Closed instance of `apply_activity_frame` at the concrete success
evaluation for a key the activity does not carry. -/
theorem apply_activity_frame_witness :
    lookupScore exResult.category_scores "community_engagement" =
      lookupScore exState.category_scores "community_engagement" ∧
    exResult.verification_level = exState.verification_level :=
  apply_activity_frame exState exActivity 0 exResult apply_activity_ex_ok
    "community_engagement" (by simp [exActivity])

/-- C9: `apply_activity` is a deterministic pure function of
`(state, activity, now)`: equal inputs give equal results. -/
theorem apply_activity_deterministic (s₁ s₂ : ReputationState) (a₁ a₂ : Activity)
    (n₁ n₂ : ℤ) (hs : s₁ = s₂) (ha : a₁ = a₂) (hn : n₁ = n₂) :
    apply_activity s₁ a₁ n₁ = apply_activity s₂ a₂ n₂ := by
  subst hs
  subst ha
  subst hn
  rfl

/-- Closed instance of `apply_activity_deterministic` at concrete inputs. -/
theorem apply_activity_deterministic_witness :
    apply_activity exState exActivity 0 = apply_activity exState exActivity 0 :=
  apply_activity_deterministic exState exState exActivity exActivity 0 0 rfl rfl rfl

/-- A clamp to `[0,1]` of a value already inside `[0,1]` is the identity. -/
theorem clamp01_eq_self {x : ℝ} (h0 : 0 ≤ x) (h1 : x ≤ 1) : clamp01 x = x := by
  unfold clamp01
  rw [max_eq_left h0, min_eq_left h1]

/-- C8: for fixed prior score `c` and activity score `v` in `[0,1]` with
`c ≠ v`, increasing the elapsed time strictly decreases the decay
`exp(-ln 2 * elapsed / HALF_LIFE)` and moves the blended updated score
strictly toward `v` and away from `c`. -/
theorem blend_score_decay_monotone (c v : ℝ) (t n₁ n₂ : ℤ)
    (hc0 : 0 ≤ c) (hc1 : c ≤ 1) (hv0 : 0 ≤ v) (hv1 : v ≤ 1) (hne : c ≠ v)
    (h0 : t ≤ n₁) (h12 : n₁ < n₂) :
    |blend_score c v (calculate_exponential_decay t n₂ DECAY_HALF_LIFE) - v| <
      |blend_score c v (calculate_exponential_decay t n₁ DECAY_HALF_LIFE) - v| ∧
    |blend_score c v (calculate_exponential_decay t n₁ DECAY_HALF_LIFE) - c| <
      |blend_score c v (calculate_exponential_decay t n₂ DECAY_HALF_LIFE) - c| := by
  have hH : (0:ℝ) < DECAY_HALF_LIFE := by norm_num [DECAY_HALF_LIFE]
  have hlog : (0:ℝ) < Real.log 2 := Real.log_pos (by norm_num)
  have he₁ : (0:ℝ) ≤ (n₁ : ℝ) - (t : ℝ) := by
    have : (t:ℝ) ≤ (n₁:ℝ) := Int.cast_le.mpr h0
    linarith
  have he₁₂ : ((n₁:ℝ) - (t:ℝ)) < ((n₂:ℝ) - (t:ℝ)) := by
    have : (n₁:ℝ) < (n₂:ℝ) := Int.cast_lt.mpr h12
    linarith
  have hd21 : calculate_exponential_decay t n₂ DECAY_HALF_LIFE <
      calculate_exponential_decay t n₁ DECAY_HALF_LIFE := by
    unfold calculate_exponential_decay
    apply Real.exp_lt_exp.mpr
    have hmul : -Real.log 2 * ((n₂:ℝ) - (t:ℝ)) < -Real.log 2 * ((n₁:ℝ) - (t:ℝ)) := by
      nlinarith
    exact div_lt_div_of_pos_right hmul hH
  have hd₁pos : 0 < calculate_exponential_decay t n₁ DECAY_HALF_LIFE := Real.exp_pos _
  have hd₂pos : 0 < calculate_exponential_decay t n₂ DECAY_HALF_LIFE := Real.exp_pos _
  have hd₁le1 : calculate_exponential_decay t n₁ DECAY_HALF_LIFE ≤ 1 := by
    unfold calculate_exponential_decay
    rw [← Real.exp_zero]
    apply Real.exp_le_exp.mpr
    apply div_nonpos_of_nonpos_of_nonneg _ hH.le
    nlinarith
  have hd₂le1 : calculate_exponential_decay t n₂ DECAY_HALF_LIFE ≤ 1 :=
    le_of_lt (lt_of_lt_of_le hd21 hd₁le1)
  have hb : ∀ d : ℝ, 0 ≤ d → d ≤ 1 → blend_score c v d = v + d * (c - v) := by
    intro d hd0 hd1
    unfold blend_score
    rw [clamp01_eq_self (by nlinarith) (by nlinarith)]
    ring
  rw [hb _ hd₁pos.le hd₁le1, hb _ hd₂pos.le hd₂le1]
  have habs_cv : 0 < |c - v| := abs_pos.mpr (sub_ne_zero.mpr hne)
  have habs_vc : 0 < |v - c| := abs_pos.mpr (sub_ne_zero.mpr (fun h => hne h.symm))
  constructor
  · have e₁ : v + calculate_exponential_decay t n₁ DECAY_HALF_LIFE * (c - v) - v =
        calculate_exponential_decay t n₁ DECAY_HALF_LIFE * (c - v) := by ring
    have e₂ : v + calculate_exponential_decay t n₂ DECAY_HALF_LIFE * (c - v) - v =
        calculate_exponential_decay t n₂ DECAY_HALF_LIFE * (c - v) := by ring
    rw [e₁, e₂, abs_mul, abs_mul, abs_of_pos hd₁pos, abs_of_pos hd₂pos]
    exact mul_lt_mul_of_pos_right hd21 habs_cv
  · have e₁ : v + calculate_exponential_decay t n₁ DECAY_HALF_LIFE * (c - v) - c =
        (1 - calculate_exponential_decay t n₁ DECAY_HALF_LIFE) * (v - c) := by ring
    have e₂ : v + calculate_exponential_decay t n₂ DECAY_HALF_LIFE * (c - v) - c =
        (1 - calculate_exponential_decay t n₂ DECAY_HALF_LIFE) * (v - c) := by ring
    rw [e₁, e₂, abs_mul, abs_mul,
      abs_of_nonneg (by linarith : (0:ℝ) ≤ 1 - calculate_exponential_decay t n₁ DECAY_HALF_LIFE),
      abs_of_nonneg (by linarith : (0:ℝ) ≤ 1 - calculate_exponential_decay t n₂ DECAY_HALF_LIFE)]
    apply mul_lt_mul_of_pos_right _ habs_vc
    linarith

/-- Closed instance of `blend_score_decay_monotone` with prior `0`, activity
score `1`, and elapsed times `1 < 2`. -/
theorem blend_score_decay_monotone_witness :
    |blend_score 0 1 (calculate_exponential_decay 0 2 DECAY_HALF_LIFE) - 1| <
      |blend_score 0 1 (calculate_exponential_decay 0 1 DECAY_HALF_LIFE) - 1| ∧
    |blend_score 0 1 (calculate_exponential_decay 0 1 DECAY_HALF_LIFE) - 0| <
      |blend_score 0 1 (calculate_exponential_decay 0 2 DECAY_HALF_LIFE) - 0| :=
  blend_score_decay_monotone 0 1 0 1 2 (by norm_num) (by norm_num) (by norm_num)
    (by norm_num) (by norm_num) (by norm_num) (by norm_num)
